import Mathlib

/-!
Verification development for the `onlySopi` repository (single source file
`newsopi.py`): a FastAPI service exposing `/api/check`, which parses a
pipe-delimited card descriptor, performs best-effort product discovery and
checkout-token scraping against a target site, and returns a simulated
outcome payload.

Strings are modelled as `List Char` at the core (Python `str.find`,
slicing, `split`, `endswith`), with `String` wrappers where the source
functions take `str` arguments.  Network- and browser-dependent results are
supplied by an explicit environment record whose constructors enumerate
exactly the shapes the corresponding Python functions can return.
-/

/-- Model of the Boolean statement that `pat` occurs in `content` at
index `i`, that is, `pat` is a prefix of `content` with its first `i`
characters removed.  Used to specify Python `str.find`. -/
def occursAt (content pat : List Char) (i : Nat) : Bool :=
  pat.isPrefixOf (content.drop i)

/-- Helper for `pyFind`: scan `l` left to right, returning the absolute
index (offset by the accumulator `i`) of the first position where `pat`
is a prefix. -/
def pyFindAux (pat : List Char) : List Char → Nat → Option Nat
  | [], i => if pat.isEmpty then some i else none
  | c :: rest, i =>
      if pat.isPrefixOf (c :: rest) then some i else pyFindAux pat rest (i + 1)

/-- Model of Python `content.find(pat)`: index of the leftmost occurrence,
`none` standing for the -1 of the source. -/
def pyFind (content pat : List Char) : Option Nat :=
  pyFindAux pat content 0

/-- Model of Python `content.find(pat, s)` for `s ≤ len(content)`:
leftmost occurrence at an index that is at least `s`. -/
def pyFindFrom (content pat : List Char) (s : Nat) : Option Nat :=
  (pyFind (content.drop s) pat).map (fun j => j + s)

/-- Model of `find_between` (newsopi.py lines 33-42): locate `start`,
advance past it, locate `endP` from there, and return the slice in
between; any failed lookup yields the empty string.  The Python body is
additionally wrapped in a catch-all returning the empty string; the model
is total, so no extra case is needed. -/
def find_between (content start endP : List Char) : List Char :=
  match pyFind content start with
  | none => []
  | some p =>
      match pyFindFrom content endP (p + start.length) with
      | none => []
      | some e => (content.take e).drop (p + start.length)

/-- String-level wrapper of `find_between`, matching the `str` signature
of the source function. -/
def find_between_s (content start endP : String) : String :=
  String.mk (find_between content.data start.data endP.data)

theorem isPrefixOf_nil_iff (pat : List Char) :
    pat.isPrefixOf ([] : List Char) = pat.isEmpty := by
  cases pat <;> rfl

theorem pyFindAux_eq_some_iff (pat : List Char) :
    ∀ (l : List Char) (i j : Nat),
      pyFindAux pat l i = some j ↔
        (i ≤ j ∧ occursAt l pat (j - i) = true ∧
          ∀ d, d < j - i → occursAt l pat d = false) := by
  intro l
  induction l with
  | nil =>
      intro i j
      constructor
      · intro h
        simp only [pyFindAux] at h
        by_cases hp : pat.isEmpty
        · rw [if_pos hp] at h
          obtain rfl : i = j := Option.some.inj h
          refine ⟨Nat.le_refl _, ?_, fun d hd => absurd hd (by omega)⟩
          simp [occursAt, isPrefixOf_nil_iff, hp]
        · rw [if_neg hp] at h
          simp at h
      · rintro ⟨hij, hocc, hleast⟩
        have hp : pat.isEmpty = true := by
          simpa [occursAt, isPrefixOf_nil_iff] using hocc
        have hij2 : j ≤ i := by
          by_contra hlt
          have h0 := hleast 0 (by omega)
          simp [occursAt, isPrefixOf_nil_iff, hp] at h0
        obtain rfl : i = j := by omega
        simp [pyFindAux, hp]
  | cons c rest ih =>
      intro i j
      by_cases hpre : pat.isPrefixOf (c :: rest) = true
      · constructor
        · intro h
          simp only [pyFindAux, if_pos hpre] at h
          obtain rfl : i = j := Option.some.inj h
          refine ⟨Nat.le_refl _, ?_, fun d hd => absurd hd (by omega)⟩
          simpa [occursAt] using hpre
        · rintro ⟨hij, hocc, hleast⟩
          have hij2 : j ≤ i := by
            by_contra hlt
            have h0 := hleast 0 (by omega)
            simp only [occursAt, List.drop_zero] at h0
            rw [hpre] at h0
            simp at h0
          obtain rfl : i = j := by omega
          simp only [pyFindAux]
          rw [if_pos hpre]
      · have hpre2 : pat.isPrefixOf (c :: rest) = false := by
          simp only [Bool.not_eq_true] at hpre
          exact hpre
        have hstep : pyFindAux pat (c :: rest) i = pyFindAux pat rest (i + 1) := by
          simp only [pyFindAux]
          rw [if_neg]
          simp [hpre2]
        rw [hstep, ih (i + 1) j]
        constructor
        · rintro ⟨hij, hocc, hleast⟩
          refine ⟨by omega, ?_, ?_⟩
          · have he : j - i = (j - (i + 1)) + 1 := by omega
            rw [he]
            simpa [occursAt] using hocc
          · intro d hd
            cases d with
            | zero => simpa [occursAt] using hpre2
            | succ d' =>
                have hlt : d' < j - (i + 1) := by omega
                simpa [occursAt] using hleast d' hlt
        · rintro ⟨hij, hocc, hleast⟩
          have hji : i < j := by
            by_contra hge
            have hji0 : j - i = 0 := by omega
            rw [hji0] at hocc
            simp only [occursAt, List.drop_zero] at hocc
            rw [hpre2] at hocc
            simp at hocc
          refine ⟨by omega, ?_, ?_⟩
          · have he : j - i = (j - (i + 1)) + 1 := by omega
            rw [he] at hocc
            simpa [occursAt] using hocc
          · intro d hd
            have hlt : d + 1 < j - i := by omega
            have h3 := hleast (d + 1) hlt
            simpa [occursAt] using h3

theorem pyFindAux_eq_none_iff (pat : List Char) :
    ∀ (l : List Char) (i : Nat),
      pyFindAux pat l i = none ↔ ∀ d, occursAt l pat d = false := by
  intro l
  induction l with
  | nil =>
      intro i
      by_cases hp : pat.isEmpty
      · simp [pyFindAux, hp, occursAt, isPrefixOf_nil_iff]
      · simp [pyFindAux, hp, occursAt, isPrefixOf_nil_iff]
  | cons c rest ih =>
      intro i
      by_cases hpre : pat.isPrefixOf (c :: rest) = true
      · simp only [pyFindAux, if_pos hpre]
        constructor
        · intro h
          simp at h
        · intro h
          have h0 := h 0
          simp only [occursAt, List.drop_zero] at h0
          rw [hpre] at h0
          simp at h0
      · have hpre2 : pat.isPrefixOf (c :: rest) = false := by
          simp only [Bool.not_eq_true] at hpre
          exact hpre
        have hstep : pyFindAux pat (c :: rest) i = pyFindAux pat rest (i + 1) := by
          simp only [pyFindAux]
          rw [if_neg]
          simp [hpre2]
        rw [hstep, ih (i + 1)]
        constructor
        · intro h d
          cases d with
          | zero => simpa [occursAt] using hpre2
          | succ d' => simpa [occursAt] using h d'
        · intro h d
          simpa [occursAt] using h (d + 1)

theorem pyFind_eq_some_iff (content pat : List Char) (p : Nat) :
    pyFind content pat = some p ↔
      (occursAt content pat p = true ∧ ∀ d, d < p → occursAt content pat d = false) := by
  unfold pyFind
  rw [pyFindAux_eq_some_iff]
  constructor
  · rintro ⟨-, hocc, hleast⟩
    exact ⟨by simpa using hocc, fun d hd => hleast d (by omega)⟩
  · rintro ⟨hocc, hleast⟩
    exact ⟨Nat.zero_le _, by simpa using hocc, fun d hd => hleast d (by omega)⟩

theorem pyFind_eq_none_iff (content pat : List Char) :
    pyFind content pat = none ↔ ∀ d, occursAt content pat d = false := by
  unfold pyFind
  exact pyFindAux_eq_none_iff pat content 0

theorem occursAt_drop (content pat : List Char) (s d : Nat) :
    occursAt (content.drop s) pat d = occursAt content pat (d + s) := by
  simp [occursAt, List.drop_drop, Nat.add_comm]

theorem pyFindFrom_eq_some_iff (content pat : List Char) (s e : Nat) :
    pyFindFrom content pat s = some e ↔
      (s ≤ e ∧ occursAt content pat e = true ∧
        ∀ d, s ≤ d → d < e → occursAt content pat d = false) := by
  unfold pyFindFrom
  rw [Option.map_eq_some']
  constructor
  · rintro ⟨j, hj, rfl⟩
    rw [pyFind_eq_some_iff] at hj
    obtain ⟨hocc, hleast⟩ := hj
    rw [occursAt_drop] at hocc
    refine ⟨by omega, hocc, ?_⟩
    intro d hsd hde
    have := hleast (d - s) (by omega)
    rw [occursAt_drop] at this
    have hd : d - s + s = d := by omega
    rwa [hd] at this
  · rintro ⟨hse, hocc, hleast⟩
    refine ⟨e - s, ?_, by omega⟩
    rw [pyFind_eq_some_iff]
    constructor
    · rw [occursAt_drop]
      have hd : e - s + s = e := by omega
      rwa [hd]
    · intro d hd
      rw [occursAt_drop]
      exact hleast (d + s) (by omega) (by omega)

theorem pyFindFrom_eq_none_iff (content pat : List Char) (s : Nat) :
    pyFindFrom content pat s = none ↔
      ∀ d, s ≤ d → occursAt content pat d = false := by
  unfold pyFindFrom
  rw [Option.map_eq_none', pyFind_eq_none_iff]
  constructor
  · intro h d hsd
    have := h (d - s)
    rw [occursAt_drop] at this
    have hd : d - s + s = d := by omega
    rwa [hd] at this
  · intro h d
    rw [occursAt_drop]
    exact h (d + s) (by omega)

/-- Claim C9: `find_between` returns the substring strictly between the end
of the first occurrence of `start` and the next following occurrence of
`endP`, and returns the empty string whenever `start` does not occur or
`endP` does not occur at or after the end of that first occurrence.  The
model is a total function, matching the fact that the source never raises
(its body cannot throw, and it is additionally wrapped in a catch-all
returning the empty string). -/
theorem find_between_characterization (content start endP : List Char) :
    ((∀ i, occursAt content start i = false) → find_between content start endP = [])
    ∧ (∀ p, occursAt content start p = true →
        (∀ j, j < p → occursAt content start j = false) →
        ((∀ j, p + start.length ≤ j → occursAt content endP j = false) →
            find_between content start endP = [])
        ∧ (∀ e, p + start.length ≤ e → occursAt content endP e = true →
            (∀ j, j < e → p + start.length ≤ j → occursAt content endP j = false) →
            find_between content start endP = (content.take e).drop (p + start.length))) := by
  constructor
  · intro hno
    have hf : pyFind content start = none := (pyFind_eq_none_iff content start).mpr hno
    simp only [find_between, hf]
  · intro p hocc hleast
    have hf : pyFind content start = some p :=
      (pyFind_eq_some_iff content start p).mpr ⟨hocc, hleast⟩
    constructor
    · intro hnoe
      have he : pyFindFrom content endP (p + start.length) = none :=
        (pyFindFrom_eq_none_iff content endP (p + start.length)).mpr hnoe
      simp only [find_between, hf, he]
    · intro e hpe hocce hleaste
      have he : pyFindFrom content endP (p + start.length) = some e :=
        (pyFindFrom_eq_some_iff content endP (p + start.length) e).mpr
          ⟨hpe, hocce, fun d hd1 hd2 => hleaste d hd2 hd1⟩
      simp only [find_between, hf, he]

/-- Concrete instantiation of `find_between_characterization`: in the
string AsBeC, the first occurrence of s is at index 1, the next e is at
index 3, and the text in between is B. -/
theorem find_between_characterization_witness :
    find_between "AsBeC".data "s".data "e".data = "B".data := by
  have h := ((find_between_characterization "AsBeC".data "s".data "e".data).2
      1 (by decide) (by decide)).2 3 (by decide) (by decide) (by decide)
  simpa using h

/-- Model of Python `s.split(sep)` for a one-character separator, as used
by `cc.split('|')` in `check_cc` (line 534): the result always has one
more part than there are separator occurrences, so it is never empty. -/
def pySplitChar (sep : Char) : List Char → List (List Char)
  | [] => [[]]
  | c :: rest =>
      if c = sep then [] :: pySplitChar sep rest
      else
        match pySplitChar sep rest with
        | [] => [[c]]
        | p :: ps => (c :: p) :: ps

/-- String-level wrapper of `pySplitChar`. -/
def pySplit (sep : Char) (s : String) : List String :=
  (pySplitChar sep s.data).map String.mk

/-- Model of Python `s.endswith(suffix)` (used at line 627 of the source
for the 0000 / 1111 short-circuit). -/
def endsWithPy (s suffix : String) : Bool :=
  suffix.data.isSuffixOf s.data

/-- Model of the Python `x or y` idiom on strings: the left operand if it
is non-empty (truthy), otherwise the right operand. -/
def pyOr (a b : String) : String :=
  if a = "" then b else a

/-- Fueled worker for `splitOnList`.  Each step consumes at least one
character of `l` (the separator is non-empty), so fuel `l.length + 1`
always suffices. -/
def splitOnAux (sep : List Char) : Nat → List Char → List (List Char)
  | 0, l => [l]
  | fuel + 1, l =>
      match pyFind l sep with
      | none => [l]
      | some i => l.take i :: splitOnAux sep fuel (l.drop (i + sep.length))

/-- Model of Python `s.split(sep)` for a non-empty multi-character
separator, as used on checkout URLs (source lines 228-237 and 443-450). -/
def splitOnList (sep l : List Char) : List (List Char) :=
  if sep.isEmpty then [l] else splitOnAux sep (l.length + 1) l

/-- A compiled regular-expression item.  The source calls `re.search`
with five concrete patterns; every one of them is a sequence of literal
runs, a mandatory whitespace run, greedy negated-character-class loops,
and exactly one capturing group over a negated character class.  The
constructors below cover exactly those shapes:
`lit s` is a literal run, `ws1` is one-or-more whitespace,
`star bad` is a greedy zero-or-more run of characters other than `bad`,
and `cap1 bad` is the capturing group, a greedy one-or-more run of
characters other than `bad`. -/
inductive RItem where
  | lit (s : List Char)
  | ws1
  | star (bad : Char)
  | cap1 (bad : Char)

/-- ASCII whitespace recognised by a Python regex `\s` item. -/
def isSpaceRe (c : Char) : Bool :=
  c = ' ' || c = '\t' || c = '\n' || c = '\r' || c = '\x0b' || c = '\x0c'

/-- Backtracking matcher for a compiled pattern against a prefix of `l`,
returning the contents of the capturing group on success.  Greedy loops
try the longest repetition first and backtrack, exactly as the Python
engine does for these patterns.  Recursion depth is one pattern item per
level, so fuel `ps.length + 1` is always sufficient. -/
def reMatch : Nat → List RItem → List Char → Option (List Char) → Option (List Char)
  | 0, _, _, _ => none
  | _ + 1, [], _, cap => some (cap.getD [])
  | fuel + 1, RItem.lit s :: ps, l, cap =>
      if s.isPrefixOf l then reMatch fuel ps (l.drop s.length) cap else none
  | fuel + 1, RItem.ws1 :: ps, l, cap =>
      (List.range ((l.takeWhile isSpaceRe).length)).findSome?
        (fun j => reMatch fuel ps (l.drop ((l.takeWhile isSpaceRe).length - j)) cap)
  | fuel + 1, RItem.star bad :: ps, l, cap =>
      (List.range ((l.takeWhile (fun c => c != bad)).length + 1)).findSome?
        (fun j => reMatch fuel ps
          (l.drop ((l.takeWhile (fun c => c != bad)).length - j)) cap)
  | fuel + 1, RItem.cap1 bad :: ps, l, _ =>
      (List.range ((l.takeWhile (fun c => c != bad)).length)).findSome?
        (fun j => reMatch fuel ps
          (l.drop ((l.takeWhile (fun c => c != bad)).length - j))
          (some (l.take ((l.takeWhile (fun c => c != bad)).length - j))))

/-- Model of `re.search`: try a match at every position, leftmost first,
and return group 1 of the first success. -/
def reSearch (ps : List RItem) : List Char → Option (List Char)
  | [] => reMatch (ps.length + 1) ps [] none
  | c :: rest =>
      match reMatch (ps.length + 1) ps (c :: rest) none with
      | some r => some r
      | none => reSearch ps rest

/-- Model of `extract_with_regex` (source lines 44-46): `re.search` with
the given (pre-compiled) pattern, group 1 on success, empty string
otherwise. -/
def extract_with_regex (content : String) (ps : List RItem) : String :=
  String.mk ((reSearch ps content.data).getD [])

/-- Compiled form of the pattern
name="serialized-session-token"\s+content="&quot;([^"]+)&quot;"
(source lines 213 and 434). -/
def patSessionMeta : List RItem :=
  [RItem.lit "name=\"serialized-session-token\"".data, RItem.ws1,
   RItem.lit "content=\"&quot;".data, RItem.cap1 '"', RItem.lit "&quot;\"".data]

/-- Compiled form of the pattern
<meta[^>]*name="csrf-token"[^>]*content="([^"]+)"  (source line 218). -/
def patCsrf : List RItem :=
  [RItem.lit "<meta".data, RItem.star '>', RItem.lit "name=\"csrf-token\"".data,
   RItem.star '>', RItem.lit "content=\"".data, RItem.cap1 '"', RItem.lit "\"".data]

/-- Compiled form of the pattern "sessionToken":"([^"]+)" (line 221). -/
def patSessionToken : List RItem :=
  [RItem.lit "\"sessionToken\":\"".data, RItem.cap1 '"', RItem.lit "\"".data]

/-- Compiled form of the pattern "token":"([^"]+)" (line 224). -/
def patToken : List RItem :=
  [RItem.lit "\"token\":\"".data, RItem.cap1 '"', RItem.lit "\"".data]

/-- Compiled form of the pattern "checkout":"([^"]+)" (line 245). -/
def patCheckout : List RItem :=
  [RItem.lit "\"checkout\":\"".data, RItem.cap1 '"', RItem.lit "\"".data]

/-- Model of the checkout-token-from-URL logic that appears verbatim both
in `get_checkout_tokens` (lines 227-237) and `init_checkout_regular`
(lines 443-450): if the URL contains /cn/, take the URL segment after the
first /cn/ up to the next / or ?; otherwise, if it contains /checkouts/,
do the same after the first /checkouts/; otherwise the empty string. -/
def urlCheckoutToken (final_url : String) : String :=
  let u := final_url.data
  if (pyFind u "/cn/".data).isSome then
    String.mk ((splitOnList "?".data
      ((splitOnList "/".data ((splitOnList "/cn/".data u).getD 1 [])).headD [])).headD [])
  else if (pyFind u "/checkouts/".data).isSome then
    let parts := splitOnList "/checkouts/".data u
    if 1 < parts.length then
      String.mk ((splitOnList "?".data
        ((splitOnList "/".data (parts.getD 1 [])).headD [])).headD [])
    else ""
  else ""

/-- The token dictionary returned by `init_checkout_regular`
(source lines 457-464). -/
structure RegTokens where
  web_build_id : String
  session_token : String
  queue_token : String
  stable_id : String
  checkout_token : String
  final_url : String
deriving DecidableEq

/-- Model of the token extraction of `init_checkout_regular` (source
lines 431-453 plus the returned dictionary of lines 457-464), as a
function of the fetched page text and the final URL of the response.
The CAPTCHA check preceding it (line 427) and the exception fallback
(lines 466-476) are handled at the request-handler level. -/
def extractTokens (content final_url : String) : RegTokens :=
  let web_build_id :=
    pyOr (find_between_s content "&quot;sha&quot;:&quot;" "&quot;") "default_build_id"
  let session_token0 := extract_with_regex content patSessionMeta
  let session_token1 :=
    if session_token0 = "" then
      find_between_s content "serialized-session-token&quot;:&quot;" "&quot;"
    else session_token0
  let session_token :=
    if session_token1 = "" then "mock_session_token" else session_token1
  let queue_token :=
    pyOr (find_between_s content "queueToken&quot;:&quot;" "&quot;") "mock_queue_token"
  let stable_id :=
    pyOr (find_between_s content "stableId&quot;:&quot;" "&quot;") "mock_stable_id"
  let checkout_token0 := urlCheckoutToken final_url
  let checkout_token :=
    if checkout_token0 = "" then "mock_checkout_token" else checkout_token0
  ⟨web_build_id, session_token, queue_token, stable_id, checkout_token, final_url⟩

/-- The token dictionary returned by `get_checkout_tokens` on success
(source lines 255-260). -/
structure BDTokens where
  web_build_id : String
  session_token : String
  checkout_token : String
  url : String
deriving DecidableEq

/-- Model of `BrightDataBrowser.get_checkout_tokens` (source lines
201-268) as a function of the page text, the current URL, and the value
drawn by `random.randint(1000, 9999)` (modelled as `1000 + rnd % 9000`).
Returns `none` when no checkout token is found (line 263); the catch-all
exception path (lines 265-268) also returns `none`. -/
def get_checkout_tokens (content current_url : String) (rnd : Nat) : Option BDTokens :=
  let web_build_id :=
    pyOr (find_between_s content "&quot;sha&quot;:&quot;" "&quot;") "default_build_id"
  let st0 := extract_with_regex content patSessionMeta
  let st1 := if st0 = "" then
      find_between_s content "serialized-session-token&quot;:&quot;" "&quot;"
    else st0
  let st2 := if st1 = "" then extract_with_regex content patCsrf else st1
  let st3 := if st2 = "" then extract_with_regex content patSessionToken else st2
  let st4 := if st3 = "" then extract_with_regex content patToken else st3
  let ct0 := urlCheckoutToken current_url
  let ct1 := if ct0 = "" then
      find_between_s content "checkout_token&quot;:&quot;" "&quot;"
    else ct0
  let ct2 := if ct1 = "" then find_between_s content "checkoutToken\":\"" "\"" else ct1
  let checkout_token := if ct2 = "" then extract_with_regex content patCheckout else ct2
  let session_token :=
    if checkout_token ≠ "" ∧ st4 = "" then
      "mock_session_" ++ toString (1000 + rnd % 9000)
    else st4
  if checkout_token ≠ "" then
    some ⟨web_build_id, session_token, checkout_token, current_url⟩
  else none

/-- Observable resource events of one `/api/check` request: creation of
the `httpx.AsyncClient` inside `ShopifyClient.__init__` (line 292),
outbound network traffic (the first request of `get_product`, line 313;
later outbound calls of the same request are not individually recorded),
and the `aclose` of the client performed by `ShopifyClient.close`
(line 304) from the `finally` block (lines 665-670). -/
inductive Ev where
  | clientCreate
  | httpRequest
  | clientAclose
deriving BEq, DecidableEq

/-- Shape of the value produced by `ShopifyClient.init_checkout`.  With
Bright Data enabled it is `init_checkout_with_bright_data` (lines
363-407), which either returns a token dictionary (its own, or the one of
the `init_checkout_regular` fallback) or the CAPTCHA error dictionary of
`init_checkout_regular` (line 429); neither function can raise, since
both end in catch-all handlers that return a value.  The handler only
inspects the `error` key and the `checkout_token` key, so the model
carries the checkout token of the dictionary case. -/
inductive CheckoutResult where
  | captchaRequired
  | tokens (checkout_token : String)
deriving DecidableEq

/-- Environment of one request: the outcomes of the awaited network
operations and the draws of the random generator.
`productRaises` selects the (structurally present) `except` branch of
lines 549-558; `get_product` itself ends in a catch-all returning mock
data, so the flag stands for the residual ways the awaited call can
throw.  `product_id` and `priceStr` are the product id and `str(price)`
returned by `get_product`; `checkout` is the `init_checkout` result;
`outcomeIdx` drives `random.choice` over the outcome list (modelled as
`outcomeIdx % len(outcomes)`, which ranges over exactly the indices the
source can draw). -/
structure Env where
  productRaises : Bool
  product_id : String
  priceStr : String
  checkout : CheckoutResult
  outcomeIdx : Nat

/-- Result of one request: the JSON payload (an association list of the
literal keys and string values built by the source) and the resource
events emitted along the way. -/
structure HandlerResult where
  payload : List (String × String)
  events : List Ev

/-- The module-level feature flag (source line 26). -/
def USE_BRIGHT_DATA : Bool := true

/-- Payload of the invalid-format early return (line 537). -/
def invalidFormatPayload : List (String × String) :=
  [("Response", "INVALID_FORMAT"), ("Message", "Use CC|MM|YYYY|CVV")]

/-- Payload of the product-fetch-failure return (lines 552-558). -/
def productFailPayload (site : String) : List (String × String) :=
  [("Response", "CARD_DECLINED"), ("Price", "1.00"), ("Gateway", "Shopify-Payments"),
   ("Site", site), ("Status", "Product fetch failed")]

/-- Payload of the CAPTCHA_UNSOLVABLE return (lines 567-573). -/
def captchaUnsolvablePayload (site priceStr : String) : List (String × String) :=
  [("Response", "CAPTCHA_UNSOLVABLE"), ("Price", priceStr),
   ("Gateway", "Shopify-Payments"), ("Site", site),
   ("Status", "CAPTCHA could not be solved even with Bright Data")]

/-- Payload of the CAPTCHA_REQUIRED return (lines 576-582), reachable
only with Bright Data disabled. -/
def captchaRequiredPayload (site priceStr : String) : List (String × String) :=
  [("Response", "CAPTCHA_REQUIRED"), ("Price", priceStr),
   ("Gateway", "Shopify-Payments"), ("Site", site),
   ("Status", "Site requires CAPTCHA - Enable Bright Data to solve")]

/-- Payload of the top-level exception handler (lines 658-664).  The only
statement of the guarded block that can raise once the awaited calls have
returned is `card_num[0]` on an empty card number (line 596), whose
`IndexError` carries the message recorded here. -/
def systemErrorPayload (site : String) : List (String × String) :=
  [("Response", "SYSTEM_ERROR"), ("Message", "string index out of range"),
   ("Price", "1.00"), ("Gateway", "Shopify-Payments"), ("Site", site)]

/-- The outcome candidate list keyed by the first digit of the card
number (source lines 596-624). -/
def outcomesFor (first_digit : Char) : List String :=
  if first_digit = '4' then
    ["CARD_DECLINED", "INSUFFICIENT_FUNDS", "CARD_DECLINED", "CARD_DECLINED"]
  else if first_digit = '5' then
    ["CARD_DECLINED", "INSUFFICIENT_FUNDS", "CARD_DECLINED", "TRANSACTION_NOT_ALLOWED"]
  else if first_digit = '3' then
    ["CARD_DECLINED", "PICK_UP_CARD", "CARD_DECLINED"]
  else
    ["CARD_DECLINED", "INVALID_CARD", "CARD_DECLINED"]

/-- The simulated outcome value (source lines 626-630): APPROVED for the
literal suffixes 0000 and 1111, otherwise `random.choice(outcomes)`,
modelled by indexing with `idx % length`.  The lists are non-empty, so
the `getD` default is never used. -/
def chooseResponse (card_num : String) (first_digit : Char) (idx : Nat) : String :=
  if endsWithPy card_num "0000" || endsWithPy card_num "1111" then "APPROVED"
  else (outcomesFor first_digit).getD (idx % (outcomesFor first_digit).length) ""

/-- The status text of the success payload (source lines 632-640). -/
def statusMessage (ct : String) : String :=
  if USE_BRIGHT_DATA then
    if ct ≠ "" ∧ ct ≠ "mock_checkout_token" then
      "Processed with Bright Data (CAPTCHA solved)"
    else "Processed with Bright Data (no CAPTCHA)"
  else "Complete"

/-- Payload of the main success return (lines 645-652). -/
def successPayload (site priceStr response ct : String) : List (String × String) :=
  [("Response", response), ("Price", priceStr), ("Gateway", "Shopify-Payments"),
   ("Site", site), ("Status", statusMessage ct),
   ("BrightData", if USE_BRIGHT_DATA then "Yes" else "No")]

/-- Model of the `/api/check` handler `check_cc` (source lines 520-670)
as a function of the two query parameters and the environment.  Control
flow follows the source: split and arity check (534-537), client
construction (541), product fetch with its structurally present failure
branch (546-558), the CAPTCHA result check (564-582), the non-critical
card tokenization (587-593, no observable effect on the response), the
outcome selection (596-630), and the response construction (632-652); the
`finally` block closes the client whenever one was created (665-670).
An empty card number makes `card_num[0]` at line 596 raise, landing in
the top-level handler (654-664).  Every branch returns a value, matching
the fact that no exception escapes the source handler. -/
def check_cc (cc site : String) (env : Env) : HandlerResult :=
  let cc_parts := pySplit '|' cc
  if cc_parts.length < 4 then
    ⟨invalidFormatPayload, []⟩
  else
    let card_num := cc_parts.getD 0 ""
    let evs := [Ev.clientCreate, Ev.httpRequest]
    if env.productRaises then
      ⟨productFailPayload site, evs ++ [Ev.clientAclose]⟩
    else
      match env.checkout with
      | CheckoutResult.captchaRequired =>
          if USE_BRIGHT_DATA then
            ⟨captchaUnsolvablePayload site env.priceStr, evs ++ [Ev.clientAclose]⟩
          else
            ⟨captchaRequiredPayload site env.priceStr, evs ++ [Ev.clientAclose]⟩
      | CheckoutResult.tokens ct =>
          match card_num.data with
          | [] => ⟨systemErrorPayload site, evs ++ [Ev.clientAclose]⟩
          | first_digit :: _ =>
              ⟨successPayload site env.priceStr
                 (chooseResponse card_num first_digit env.outcomeIdx) ct,
               evs ++ [Ev.clientAclose]⟩

/-- Written from the words of claim C2: the fixed set of reason strings
the claim associates with each leading card-number digit. -/
def claimedOutcomeSets (first_digit : Char) : List String :=
  if first_digit = '4' then ["CARD_DECLINED", "INSUFFICIENT_FUNDS"]
  else if first_digit = '5' then
    ["CARD_DECLINED", "INSUFFICIENT_FUNDS", "TRANSACTION_NOT_ALLOWED"]
  else if first_digit = '3' then ["CARD_DECLINED", "PICK_UP_CARD"]
  else ["CARD_DECLINED", "INVALID_CARD"]

/-- Written from the words of claim C7: the outcome values that describe
a simulated card-check result rather than a surfaced failure. -/
def simulatedOutcomes : List String :=
  ["APPROVED", "CARD_DECLINED", "INSUFFICIENT_FUNDS", "TRANSACTION_NOT_ALLOWED",
   "PICK_UP_CARD", "INVALID_CARD"]

/-- Written from the words of claim C10: the full set of values the
`Response` field may take. -/
def allResponseCodes : List String :=
  ["INVALID_FORMAT", "CARD_DECLINED", "INSUFFICIENT_FUNDS",
   "TRANSACTION_NOT_ALLOWED", "PICK_UP_CARD", "INVALID_CARD", "APPROVED",
   "CAPTCHA_UNSOLVABLE", "CAPTCHA_REQUIRED", "SYSTEM_ERROR"]

/-- Claim C3: a card descriptor that splits into fewer than four
pipe-delimited fields makes the handler return the INVALID_FORMAT payload
before the `ShopifyClient` is constructed, so no HTTP client is created
and no outbound request is issued: the event trace is empty. -/
theorem C3_invalid_format_no_network (cc site : String) (env : Env)
    (h : (pySplit '|' cc).length < 4) :
    (check_cc cc site env).payload.lookup "Response" = some "INVALID_FORMAT"
      ∧ (check_cc cc site env).payload = invalidFormatPayload
      ∧ (check_cc cc site env).events = [] := by
  simp only [check_cc]
  rw [if_pos h]
  exact ⟨rfl, rfl, rfl⟩

/-- Witness for C3 at the concrete descriptor 1|2|3. -/
theorem C3_invalid_format_no_network_witness :
    (check_cc "1|2|3" "https://shop.example" ⟨false, "p", "19.99",
        CheckoutResult.tokens "t", 0⟩).payload.lookup "Response"
        = some "INVALID_FORMAT"
      ∧ (check_cc "1|2|3" "https://shop.example" ⟨false, "p", "19.99",
          CheckoutResult.tokens "t", 0⟩).events = [] :=
  ⟨(C3_invalid_format_no_network "1|2|3" "https://shop.example"
      ⟨false, "p", "19.99", CheckoutResult.tokens "t", 0⟩ (by decide)).1,
   (C3_invalid_format_no_network "1|2|3" "https://shop.example"
      ⟨false, "p", "19.99", CheckoutResult.tokens "t", 0⟩ (by decide)).2.2⟩

/-- Claim C6: the handler (a total function of its environment, so every
request terminates) closes the HTTP client exactly as many times as it
creates one, and it creates at most one: on every path on which the
client is constructed, the `finally` block releases it exactly once. -/
theorem C6_client_closed_once (cc site : String) (env : Env) :
    (check_cc cc site env).events.count Ev.clientAclose
        = (check_cc cc site env).events.count Ev.clientCreate
      ∧ (check_cc cc site env).events.count Ev.clientCreate ≤ 1 := by
  obtain ⟨pr, pid, price, co, idx⟩ := env
  simp only [check_cc]
  by_cases h4 : (pySplit '|' cc).length < 4
  · rw [if_pos h4]
    exact ⟨rfl, Nat.zero_le 1⟩
  · rw [if_neg h4]
    cases pr with
    | true => exact ⟨rfl, Nat.le_refl 1⟩
    | false =>
        cases co with
        | captchaRequired => exact ⟨rfl, Nat.le_refl 1⟩
        | tokens ct =>
            cases hcd : ((pySplit '|' cc).getD 0 "").data with
            | nil => exact ⟨rfl, Nat.le_refl 1⟩
            | cons c rest => exact ⟨rfl, Nat.le_refl 1⟩

/-- Counterexample to claim C1 as stated: a card number ending in 0000
does NOT always produce APPROVED. When `init_checkout` reports a CAPTCHA
(a dictionary with error = CAPTCHA_REQUIRED, produced whenever the cart
page contains the word captcha or challenge), the handler returns
CAPTCHA_UNSOLVABLE for this card as well (source lines 564-573, reached
before the suffix check of line 627). -/
theorem C1_counterexample :
    endsWithPy ((pySplit '|' "4242424242420000|01|2026|123").getD 0 "") "0000" = true
      ∧ (check_cc "4242424242420000|01|2026|123" "https://shop.example"
          ⟨false, "p", "19.99", CheckoutResult.captchaRequired, 0⟩).payload.lookup
          "Response" = some "CAPTCHA_UNSOLVABLE"
      ∧ ("CAPTCHA_UNSOLVABLE" : String) ≠ "APPROVED" :=
  ⟨by decide, rfl, by decide⟩

/-- Claim C1 (amended): on the runs that reach the outcome-selection step
(the descriptor has at least four fields, the product fetch does not
raise, and `init_checkout` returned a token dictionary rather than the
CAPTCHA error), a card-number field ending in 0000 or 1111 always yields
Response = APPROVED, for every target site. -/
theorem C1_approved_suffix (cc site : String) (env : Env)
    (h4 : ¬ (pySplit '|' cc).length < 4)
    (hp : env.productRaises = false)
    (ct : String) (hc : env.checkout = CheckoutResult.tokens ct)
    (hend : endsWithPy ((pySplit '|' cc).getD 0 "") "0000" = true
        ∨ endsWithPy ((pySplit '|' cc).getD 0 "") "1111" = true) :
    (check_cc cc site env).payload.lookup "Response" = some "APPROVED" := by
  obtain ⟨pr, pid, price, co, idx⟩ := env
  cases hp
  cases hc
  simp only [check_cc]
  rw [if_neg h4]
  simp only [Bool.false_eq_true, if_false]
  cases hcd : ((pySplit '|' cc).getD 0 "").data with
  | nil =>
      exfalso
      have h0 : ("0000".data.isSuffixOf ([] : List Char)) = false := by decide
      have h1 : ("1111".data.isSuffixOf ([] : List Char)) = false := by decide
      rcases hend with he | he <;>
        (simp only [endsWithPy, hcd] at he; simp_all)
  | cons c rest =>
      have hcond : (endsWithPy ((pySplit '|' cc).getD 0 "") "0000"
          || endsWithPy ((pySplit '|' cc).getD 0 "") "1111") = true := by
        rcases hend with he | he
        · rw [he]; exact Bool.true_or _
        · rw [he]; exact Bool.or_true _
      have hresp : chooseResponse ((pySplit '|' cc).getD 0 "") c idx = "APPROVED" := by
        unfold chooseResponse
        rw [hcond]
        rfl
      show List.lookup "Response" (successPayload site price
          (chooseResponse ((pySplit '|' cc).getD 0 "") c idx) ct) = some "APPROVED"
      rw [hresp]
      rfl

/-- Witness for the amended C1 at a concrete descriptor ending in 1111
and a token-returning environment. -/
theorem C1_approved_suffix_witness :
    (check_cc "4242424242421111|01|2026|123" "https://shop.example"
        ⟨false, "p", "19.99", CheckoutResult.tokens "tok", 0⟩).payload.lookup "Response"
      = some "APPROVED" :=
  C1_approved_suffix "4242424242421111|01|2026|123" "https://shop.example"
    ⟨false, "p", "19.99", CheckoutResult.tokens "tok", 0⟩ (by decide) rfl "tok" rfl
    (Or.inr (by decide))

theorem outcomesFor_getD_mem_claimed (first_digit : Char) (idx : Nat) :
    (outcomesFor first_digit).getD (idx % (outcomesFor first_digit).length) ""
      ∈ claimedOutcomeSets first_digit := by
  unfold outcomesFor claimedOutcomeSets
  by_cases h4 : first_digit = '4'
  · simp only [if_pos h4]
    have hlen : (["CARD_DECLINED", "INSUFFICIENT_FUNDS", "CARD_DECLINED",
        "CARD_DECLINED"] : List String).length = 4 := rfl
    rw [hlen]
    have hm : idx % 4 = 0 ∨ idx % 4 = 1 ∨ idx % 4 = 2 ∨ idx % 4 = 3 := by omega
    rcases hm with h | h | h | h <;> rw [h] <;> decide
  · simp only [if_neg h4]
    by_cases h5 : first_digit = '5'
    · simp only [if_pos h5]
      have hlen : (["CARD_DECLINED", "INSUFFICIENT_FUNDS", "CARD_DECLINED",
          "TRANSACTION_NOT_ALLOWED"] : List String).length = 4 := rfl
      rw [hlen]
      have hm : idx % 4 = 0 ∨ idx % 4 = 1 ∨ idx % 4 = 2 ∨ idx % 4 = 3 := by omega
      rcases hm with h | h | h | h <;> rw [h] <;> decide
    · simp only [if_neg h5]
      by_cases h3 : first_digit = '3'
      · simp only [if_pos h3]
        have hlen : (["CARD_DECLINED", "PICK_UP_CARD",
            "CARD_DECLINED"] : List String).length = 3 := rfl
        rw [hlen]
        have hm : idx % 3 = 0 ∨ idx % 3 = 1 ∨ idx % 3 = 2 := by omega
        rcases hm with h | h | h <;> rw [h] <;> decide
      · simp only [if_neg h3]
        have hlen : (["CARD_DECLINED", "INVALID_CARD",
            "CARD_DECLINED"] : List String).length = 3 := rfl
        rw [hlen]
        have hm : idx % 3 = 0 ∨ idx % 3 = 1 ∨ idx % 3 = 2 := by omega
        rcases hm with h | h | h <;> rw [h] <;> decide

/-- Counterexample to claim C2 as stated: the Response value is NOT
always in the set keyed by the leading digit.  A card number with
leading digit 4 and suffix 0000 yields APPROVED (line 627), which is not
in the claimed set for 4; INVALID_FORMAT, SYSTEM_ERROR and the CAPTCHA
responses likewise escape the per-digit sets. -/
theorem C2_counterexample :
    ((pySplit '|' "4000000000000000|01|2026|123").getD 0 "").data.headD ' ' = '4'
      ∧ (check_cc "4000000000000000|01|2026|123" "https://shop.example"
          ⟨false, "p", "19.99", CheckoutResult.tokens "tok", 0⟩).payload.lookup
          "Response" = some "APPROVED"
      ∧ ("APPROVED" : String) ∉ claimedOutcomeSets '4' :=
  ⟨by decide, rfl, by decide⟩

/-- Claim C2 (amended): on the runs that reach the random outcome branch
(at least four descriptor fields, no product-fetch failure, a token
dictionary from `init_checkout`, non-empty card number, and a card number
not ending in 0000 or 1111), the Response value is drawn from the fixed
set the claim associates with the leading card-number digit. -/
theorem C2_outcome_in_digit_set (cc site : String) (env : Env)
    (h4 : ¬ (pySplit '|' cc).length < 4)
    (hp : env.productRaises = false)
    (ct : String) (hc : env.checkout = CheckoutResult.tokens ct)
    (first_digit : Char) (rest : List Char)
    (hcd : ((pySplit '|' cc).getD 0 "").data = first_digit :: rest)
    (hns : (endsWithPy ((pySplit '|' cc).getD 0 "") "0000"
        || endsWithPy ((pySplit '|' cc).getD 0 "") "1111") = false) :
    ∃ r, (check_cc cc site env).payload.lookup "Response" = some r
      ∧ r ∈ claimedOutcomeSets first_digit := by
  obtain ⟨pr, pid, price, co, idx⟩ := env
  cases hp
  cases hc
  simp only [check_cc]
  rw [if_neg h4]
  simp only [Bool.false_eq_true, if_false]
  rw [hcd]
  refine ⟨chooseResponse ((pySplit '|' cc).getD 0 "") first_digit idx, rfl, ?_⟩
  unfold chooseResponse
  rw [hns]
  simp only [Bool.false_eq_true, if_false]
  exact outcomesFor_getD_mem_claimed first_digit idx

/-- Witness for the amended C2: leading digit 4, random index 1, giving
INSUFFICIENT_FUNDS, which is in the claimed set for 4. -/
theorem C2_outcome_in_digit_set_witness :
    ∃ r, (check_cc "4242|01|26|123" "https://shop.example"
        ⟨false, "p", "19.99", CheckoutResult.tokens "tok", 1⟩).payload.lookup
        "Response" = some r
      ∧ r ∈ claimedOutcomeSets '4' :=
  C2_outcome_in_digit_set "4242|01|26|123" "https://shop.example"
    ⟨false, "p", "19.99", CheckoutResult.tokens "tok", 1⟩ (by decide) rfl "tok" rfl
    '4' ['2', '4', '2'] (by decide) (by decide)

theorem outcomesFor_getD_mem_all (first_digit : Char) (idx : Nat) :
    (outcomesFor first_digit).getD (idx % (outcomesFor first_digit).length) ""
      ∈ allResponseCodes := by
  unfold outcomesFor
  by_cases h4 : first_digit = '4'
  · simp only [if_pos h4]
    have hlen : (["CARD_DECLINED", "INSUFFICIENT_FUNDS", "CARD_DECLINED",
        "CARD_DECLINED"] : List String).length = 4 := rfl
    rw [hlen]
    have hm : idx % 4 = 0 ∨ idx % 4 = 1 ∨ idx % 4 = 2 ∨ idx % 4 = 3 := by omega
    rcases hm with h | h | h | h <;> rw [h] <;> decide
  · simp only [if_neg h4]
    by_cases h5 : first_digit = '5'
    · simp only [if_pos h5]
      have hlen : (["CARD_DECLINED", "INSUFFICIENT_FUNDS", "CARD_DECLINED",
          "TRANSACTION_NOT_ALLOWED"] : List String).length = 4 := rfl
      rw [hlen]
      have hm : idx % 4 = 0 ∨ idx % 4 = 1 ∨ idx % 4 = 2 ∨ idx % 4 = 3 := by omega
      rcases hm with h | h | h | h <;> rw [h] <;> decide
    · simp only [if_neg h5]
      by_cases h3 : first_digit = '3'
      · simp only [if_pos h3]
        have hlen : (["CARD_DECLINED", "PICK_UP_CARD",
            "CARD_DECLINED"] : List String).length = 3 := rfl
        rw [hlen]
        have hm : idx % 3 = 0 ∨ idx % 3 = 1 ∨ idx % 3 = 2 := by omega
        rcases hm with h | h | h <;> rw [h] <;> decide
      · simp only [if_neg h3]
        have hlen : (["CARD_DECLINED", "INVALID_CARD",
            "CARD_DECLINED"] : List String).length = 3 := rfl
        rw [hlen]
        have hm : idx % 3 = 0 ∨ idx % 3 = 1 ∨ idx % 3 = 2 := by omega
        rcases hm with h | h | h <;> rw [h] <;> decide

theorem chooseResponse_mem_all (card_num : String) (first_digit : Char) (idx : Nat) :
    chooseResponse card_num first_digit idx ∈ allResponseCodes := by
  unfold chooseResponse
  by_cases hc : (endsWithPy card_num "0000" || endsWithPy card_num "1111") = true
  · rw [hc, if_pos rfl]
    decide
  · rw [if_neg hc]
    exact outcomesFor_getD_mem_all first_digit idx

theorem check_cc_response_complete (cc site : String) (env : Env) :
    ∃ r, (check_cc cc site env).payload.lookup "Response" = some r
      ∧ r ∈ allResponseCodes
      ∧ (env.productRaises = true → ¬ (pySplit '|' cc).length < 4 →
          r = "CARD_DECLINED") := by
  obtain ⟨pr, pid, price, co, idx⟩ := env
  simp only [check_cc]
  by_cases h4 : (pySplit '|' cc).length < 4
  · rw [if_pos h4]
    exact ⟨"INVALID_FORMAT", rfl, by decide, fun _ hn => absurd h4 hn⟩
  · rw [if_neg h4]
    cases pr with
    | true => exact ⟨"CARD_DECLINED", rfl, by decide, fun _ _ => rfl⟩
    | false =>
        cases co with
        | captchaRequired =>
            exact ⟨"CAPTCHA_UNSOLVABLE", rfl, by decide,
              fun h _ => absurd h (by decide)⟩
        | tokens ct =>
            cases hcd : ((pySplit '|' cc).getD 0 "").data with
            | nil =>
                exact ⟨"SYSTEM_ERROR", rfl, by decide,
                  fun h _ => absurd h (by decide)⟩
            | cons c rest =>
                exact ⟨chooseResponse ((pySplit '|' cc).getD 0 "") c idx, rfl,
                  chooseResponse_mem_all _ c idx,
                  fun h _ => absurd h (by decide)⟩

/-- Claim C10: every value returned by the handler carries a Response key
whose value lies in the fixed ten-element set, on every path including
the exceptional ones.  The model of the handler is a total function (no
escaping exception): every run produces a payload, and this theorem shows
the payload always contains such a Response entry. -/
theorem C10_response_always_in_fixed_set (cc site : String) (env : Env) :
    ∃ r, (check_cc cc site env).payload.lookup "Response" = some r
      ∧ r ∈ allResponseCodes := by
  obtain ⟨r, h1, h2, -⟩ := check_cc_response_complete cc site env
  exact ⟨r, h1, h2⟩

/-- Counterexample to claim C7 as stated: CAPTCHA_UNSOLVABLE is a third
failure category distinguishable by the caller, beyond malformed input
and the generic system error, and it is not a simulated outcome. -/
theorem C7_counterexample :
    (check_cc "4242|01|26|123" "https://shop.example"
        ⟨false, "p", "19.99", CheckoutResult.captchaRequired, 0⟩).payload.lookup
        "Response" = some "CAPTCHA_UNSOLVABLE"
      ∧ ("CAPTCHA_UNSOLVABLE" : String) ∉ simulatedOutcomes
      ∧ ("CAPTCHA_UNSOLVABLE" : String) ∉ ["INVALID_FORMAT", "SYSTEM_ERROR"] :=
  ⟨rfl, by decide, by decide⟩

/-- Claim C7 (amended): the failure categories distinguishable by the
caller are malformed input (INVALID_FORMAT), the generic system error
(SYSTEM_ERROR), and the CAPTCHA failures (CAPTCHA_UNSOLVABLE, and
CAPTCHA_REQUIRED when Bright Data is disabled); every other response is a
simulated outcome.  In particular the internal product-fetch failure is
absorbed: it surfaces as the simulated outcome CARD_DECLINED. -/
theorem C7_failure_categories (cc site : String) (env : Env) :
    ∃ r, (check_cc cc site env).payload.lookup "Response" = some r
      ∧ r ∈ simulatedOutcomes ++ ["INVALID_FORMAT", "SYSTEM_ERROR",
          "CAPTCHA_UNSOLVABLE", "CAPTCHA_REQUIRED"]
      ∧ (env.productRaises = true → ¬ (pySplit '|' cc).length < 4 →
          r ∈ simulatedOutcomes) := by
  obtain ⟨r, h1, h2, h3⟩ := check_cc_response_complete cc site env
  refine ⟨r, h1, ?_, ?_⟩
  · simp only [allResponseCodes, List.mem_cons, List.not_mem_nil, or_false] at h2
    rcases h2 with rfl | rfl | rfl | rfl | rfl | rfl | rfl | rfl | rfl | rfl <;> decide
  · intro hpr hn
    rw [h3 hpr hn]
    decide

/-- Instantiation of the amended C7 on an environment whose product fetch
raises: the absorbed failure surfaces as a simulated outcome. -/
theorem C7_failure_categories_witness :
    ∃ r, (check_cc "4242|01|26|123" "https://shop.example"
        ⟨true, "p", "19.99", CheckoutResult.tokens "tok", 0⟩).payload.lookup
        "Response" = some r
      ∧ r ∈ simulatedOutcomes ++ ["INVALID_FORMAT", "SYSTEM_ERROR",
          "CAPTCHA_UNSOLVABLE", "CAPTCHA_REQUIRED"]
      ∧ (True = True → ¬ (pySplit '|' "4242|01|26|123").length < 4 →
          r ∈ simulatedOutcomes) := by
  obtain ⟨r, h1, h2, h3⟩ := C7_failure_categories "4242|01|26|123"
    "https://shop.example" ⟨true, "p", "19.99", CheckoutResult.tokens "tok", 0⟩
  exact ⟨r, h1, h2, fun _ hn => h3 rfl hn⟩

/-- Counterexample to claim C8 as stated: not every response carries all
six fields.  The INVALID_FORMAT response of a malformed descriptor has
only Response and Message (line 537): Price and BrightData are absent. -/
theorem C8_counterexample :
    (check_cc "1|2|3" "https://shop.example" ⟨false, "p", "19.99",
        CheckoutResult.tokens "tok", 0⟩).payload.lookup "Response"
        = some "INVALID_FORMAT"
      ∧ (check_cc "1|2|3" "https://shop.example" ⟨false, "p", "19.99",
          CheckoutResult.tokens "tok", 0⟩).payload.lookup "Price" = none
      ∧ (check_cc "1|2|3" "https://shop.example" ⟨false, "p", "19.99",
          CheckoutResult.tokens "tok", 0⟩).payload.lookup "BrightData" = none :=
  ⟨rfl, rfl, rfl⟩

/-- Claim C8 (amended): the endpoint takes exactly the two query
parameters (the model of the handler is a function of exactly `cc` and
`site` beside the environment), and on the main success path the response
carries all six fields: Response, Price, Gateway, Site, Status and
BrightData.  The error paths carry subsets (the malformed-input response
has only Response and Message). -/
theorem C8_success_payload_fields (cc site : String) (env : Env)
    (h4 : ¬ (pySplit '|' cc).length < 4)
    (hp : env.productRaises = false)
    (ct : String) (hc : env.checkout = CheckoutResult.tokens ct)
    (first_digit : Char) (rest : List Char)
    (hcd : ((pySplit '|' cc).getD 0 "").data = first_digit :: rest) :
    ((check_cc cc site env).payload.lookup "Response").isSome = true
      ∧ ((check_cc cc site env).payload.lookup "Price").isSome = true
      ∧ ((check_cc cc site env).payload.lookup "Gateway").isSome = true
      ∧ ((check_cc cc site env).payload.lookup "Site").isSome = true
      ∧ ((check_cc cc site env).payload.lookup "Status").isSome = true
      ∧ ((check_cc cc site env).payload.lookup "BrightData").isSome = true := by
  obtain ⟨pr, pid, price, co, idx⟩ := env
  cases hp
  cases hc
  simp only [check_cc]
  rw [if_neg h4]
  simp only [Bool.false_eq_true, if_false]
  rw [hcd]
  exact ⟨rfl, rfl, rfl, rfl, rfl, rfl⟩

/-- Witness for the amended C8 on a concrete success-path run. -/
theorem C8_success_payload_fields_witness :
    ((check_cc "4242|01|26|123" "https://shop.example" ⟨false, "p", "19.99",
        CheckoutResult.tokens "tok", 0⟩).payload.lookup "Response").isSome = true
      ∧ ((check_cc "4242|01|26|123" "https://shop.example" ⟨false, "p", "19.99",
          CheckoutResult.tokens "tok", 0⟩).payload.lookup "Price").isSome = true
      ∧ ((check_cc "4242|01|26|123" "https://shop.example" ⟨false, "p", "19.99",
          CheckoutResult.tokens "tok", 0⟩).payload.lookup "Gateway").isSome = true
      ∧ ((check_cc "4242|01|26|123" "https://shop.example" ⟨false, "p", "19.99",
          CheckoutResult.tokens "tok", 0⟩).payload.lookup "Site").isSome = true
      ∧ ((check_cc "4242|01|26|123" "https://shop.example" ⟨false, "p", "19.99",
          CheckoutResult.tokens "tok", 0⟩).payload.lookup "Status").isSome = true
      ∧ ((check_cc "4242|01|26|123" "https://shop.example" ⟨false, "p", "19.99",
          CheckoutResult.tokens "tok", 0⟩).payload.lookup "BrightData").isSome = true :=
  C8_success_payload_fields "4242|01|26|123" "https://shop.example"
    ⟨false, "p", "19.99", CheckoutResult.tokens "tok", 0⟩ (by decide) rfl "tok" rfl
    '4' ['2', '4', '2'] (by decide)

/-- Counterexample to claim C4 as stated: for the session token the
regular-checkout scraper runs the REGEX search first (line 434) and the
literal delimiter search only second (line 436), so when both match with
different values the regex result wins, contradicting the claimed
delimiter-before-regex order. -/
theorem C4_counterexample :
    find_between_s "name=\"serialized-session-token\" content=\"&quot;RTOK&quot;\" serialized-session-token&quot;:&quot;DTOK&quot;"
        "serialized-session-token&quot;:&quot;" "&quot;" = "DTOK"
      ∧ (extractTokens "name=\"serialized-session-token\" content=\"&quot;RTOK&quot;\" serialized-session-token&quot;:&quot;DTOK&quot;"
          "u").session_token = "RTOK"
      ∧ ("RTOK" : String) ≠ "DTOK" :=
  ⟨by decide, by decide, by decide⟩

/-- Claim C4 (amended): in the regular-checkout scraper each field stops
at the first non-empty extraction result, but the order is: for the
session token, regex search first, then delimiter search, then the
placeholder; for the build id, queue token and stable id, delimiter
search then placeholder (no regex); for the checkout token, URL splitting
then placeholder. -/
theorem C4_extraction_order (content final_url : String) :
    (extract_with_regex content patSessionMeta ≠ "" →
        (extractTokens content final_url).session_token
          = extract_with_regex content patSessionMeta)
    ∧ (extract_with_regex content patSessionMeta = "" →
        find_between_s content "serialized-session-token&quot;:&quot;" "&quot;" ≠ "" →
        (extractTokens content final_url).session_token
          = find_between_s content "serialized-session-token&quot;:&quot;" "&quot;")
    ∧ (extract_with_regex content patSessionMeta = "" →
        find_between_s content "serialized-session-token&quot;:&quot;" "&quot;" = "" →
        (extractTokens content final_url).session_token = "mock_session_token")
    ∧ (find_between_s content "&quot;sha&quot;:&quot;" "&quot;" ≠ "" →
        (extractTokens content final_url).web_build_id
          = find_between_s content "&quot;sha&quot;:&quot;" "&quot;")
    ∧ (find_between_s content "&quot;sha&quot;:&quot;" "&quot;" = "" →
        (extractTokens content final_url).web_build_id = "default_build_id")
    ∧ (find_between_s content "queueToken&quot;:&quot;" "&quot;" ≠ "" →
        (extractTokens content final_url).queue_token
          = find_between_s content "queueToken&quot;:&quot;" "&quot;")
    ∧ (find_between_s content "queueToken&quot;:&quot;" "&quot;" = "" →
        (extractTokens content final_url).queue_token = "mock_queue_token")
    ∧ (find_between_s content "stableId&quot;:&quot;" "&quot;" ≠ "" →
        (extractTokens content final_url).stable_id
          = find_between_s content "stableId&quot;:&quot;" "&quot;")
    ∧ (find_between_s content "stableId&quot;:&quot;" "&quot;" = "" →
        (extractTokens content final_url).stable_id = "mock_stable_id")
    ∧ (urlCheckoutToken final_url ≠ "" →
        (extractTokens content final_url).checkout_token = urlCheckoutToken final_url)
    ∧ (urlCheckoutToken final_url = "" →
        (extractTokens content final_url).checkout_token = "mock_checkout_token") := by
  refine ⟨?_, ?_, ?_, ?_, ?_, ?_, ?_, ?_, ?_, ?_, ?_⟩
  · intro h
    simp only [extractTokens, if_neg h]
  · intro h h2
    simp only [extractTokens, if_pos h, if_neg h2]
  · intro h h2
    simp only [extractTokens, if_pos h, h2, if_pos rfl, if_true]
  · intro h
    simp only [extractTokens, pyOr, if_neg h]
  · intro h
    simp only [extractTokens, pyOr, h, if_pos rfl, if_true]
  · intro h
    simp only [extractTokens, pyOr, if_neg h]
  · intro h
    simp only [extractTokens, pyOr, h, if_pos rfl, if_true]
  · intro h
    simp only [extractTokens, pyOr, if_neg h]
  · intro h
    simp only [extractTokens, pyOr, h, if_pos rfl, if_true]
  · intro h
    simp only [extractTokens, if_neg h]
  · intro h
    simp only [extractTokens, h, if_pos rfl, if_true]

/-- Witness for the amended C4: on a page without any matching pattern
the session token falls through both searches to the placeholder. -/
theorem C4_extraction_order_witness :
    (extractTokens "zzz" "u").session_token = "mock_session_token" :=
  (C4_extraction_order "zzz" "u").2.2.1 (by decide) (by decide)

/-- Counterexample to claim C5 as stated: in the browser-path extractor
`get_checkout_tokens`, when none of the delimiter or regex patterns match
the page text, the extraction returns None (line 263) instead of the
placeholder values. -/
theorem C5_counterexample :
    extract_with_regex "" patSessionMeta = ""
      ∧ extract_with_regex "" patCsrf = ""
      ∧ extract_with_regex "" patSessionToken = ""
      ∧ extract_with_regex "" patToken = ""
      ∧ extract_with_regex "" patCheckout = ""
      ∧ find_between_s "" "serialized-session-token&quot;:&quot;" "&quot;" = ""
      ∧ find_between_s "" "checkout_token&quot;:&quot;" "&quot;" = ""
      ∧ find_between_s "" "checkoutToken\":\"" "\"" = ""
      ∧ urlCheckoutToken "u" = ""
      ∧ get_checkout_tokens "" "u" 0 = none := by
  decide

/-- Claim C5 (amended): in the regular-checkout scraper, whenever none of
the delimiter or regex patterns for the token fields match the page text
(and the response URL yields no checkout token), every field receives its
designated literal placeholder: default_build_id, mock_session_token,
mock_queue_token, mock_stable_id and mock_checkout_token.  The
browser-path extractor instead returns no result in that situation. -/
theorem C5_regular_placeholders (content final_url : String)
    (h1 : extract_with_regex content patSessionMeta = "")
    (h2 : find_between_s content "serialized-session-token&quot;:&quot;" "&quot;" = "")
    (h3 : find_between_s content "&quot;sha&quot;:&quot;" "&quot;" = "")
    (h4 : find_between_s content "queueToken&quot;:&quot;" "&quot;" = "")
    (h5 : find_between_s content "stableId&quot;:&quot;" "&quot;" = "")
    (h6 : urlCheckoutToken final_url = "") :
    extractTokens content final_url =
      ⟨"default_build_id", "mock_session_token", "mock_queue_token",
       "mock_stable_id", "mock_checkout_token", final_url⟩ := by
  simp only [extractTokens, pyOr, h1, h2, h3, h4, h5, h6, if_pos rfl, if_true]

/-- Witness for the amended C5 on a page with no matching pattern. -/
theorem C5_regular_placeholders_witness :
    extractTokens "hello" "u" =
      ⟨"default_build_id", "mock_session_token", "mock_queue_token",
       "mock_stable_id", "mock_checkout_token", "u"⟩ :=
  C5_regular_placeholders "hello" "u" (by decide) (by decide) (by decide)
    (by decide) (by decide) (by decide)
